import Mathlib

/-!
Verification of the dispatch-and-error layer of the go-hubspot-sdk repository.

The Go sources are shallowly embedded: structs become Lean structures, the
duck-typed `error` universe becomes the inductive `SdkError`, JSON bodies
become the inductive `Jv`, and every client method is embedded as a pure
function from the dispatcher outcome to the pair (result, error) that the Go
method returns.  Definitions follow the Go sources under `src/`; parts of the
repository that are not under `src/` (the shared `client` package, the objects
package implementation, the deals models and the `internal/tools` unmarshaller)
are modelled from the specification, and each such definition says so in its
doc comment.
-/

namespace HubSpotSDK

/-- A JSON value, the shape of a response body once the raw bytes have been
parsed.  Client methods receive the body as `Option Jv`: `none` stands for a
body that is not syntactically valid JSON (`json.Unmarshal` then fails for
every target type). -/
inductive Jv where
  | null
  | bool (b : Bool)
  | num (n : Int)
  | str (s : String)
  | arr (elems : List Jv)
  | obj (fields : List (String × Jv))

/-- Look a key up among the fields of a JSON object (first occurrence). -/
def findField (fields : List (String × Jv)) (key : String) : Option Jv :=
  match fields with
  | [] => none
  | (k, v) :: rest => if k = key then some v else findField rest key

/-- `client.HubSpotError`, the structured server error of the shared client
package.  Modelled from the spec: the client package is not under `src/`; the
spec describes it as carrying the HTTP status, a category string and a
message, which is also how every test constructs it. -/
structure HubSpotError where
  status : Nat
  category : String
  message : String
deriving Repr, DecidableEq

/-- A sub-error of a batch item error (`ObjectError` in the objects package).
Modelled from the spec: the objects package models are not under `src/`; the
spec describes sub-errors as each carrying its own message and sub-category. -/
structure ObjectError where
  message : String
  subCategory : String
deriving Repr, DecidableEq

/-- A batch item error (`BatchError` in the objects package).  Modelled from
the spec: the objects package models are not under `src/`; the spec describes
the fields (status tag, category, message, open context mapping, links and a
list of sub-errors), which is also the shape the tests construct. -/
structure BatchError where
  status : String
  category : String
  message : String
  context : List (String × List String)
  links : List (String × String)
  errors : List ObjectError
deriving Repr, DecidableEq

/-- The universe of Go `error` values that the embedded layer produces or
inspects.  `hubspot` is the structured server error; the four `list*` and
`record*` variants are the typed errors of `crm/v3/lists/errors.go`;
`unmarshal` stands for the `fmt.Errorf("failed to unmarshal %s response: %w")`
wrappers; `plain` for `fmt.Errorf`/`errors.New` messages; `batchPartial` for
the error a batch call reports when the response counts item failures. -/
inductive SdkError where
  | hubspot (original : HubSpotError)
  | listNotFound (listID : String) (original : HubSpotError)
  | listValidation (field : String) (message : String) (original : HubSpotError)
  | listAlreadyExists (listName : String) (original : HubSpotError)
  | recordNotFound (recordID : String) (listID : String) (original : HubSpotError)
  | unmarshal (call : String)
  | plain (msg : String)
  | batchPartial (numErrors : Int) (errors : List BatchError)
deriving Repr, DecidableEq

/-- The text of a batch item error: `BatchError.Error()` of the objects
package.  Modelled from the spec: the objects package implementation is not
under `src/`; the spec fixes the rendering (`"<message>: <sub1>; <sub2>; ..."`
when both parts exist, `"<message>"` with no sub-errors, `"batch error: <sub1>"`
with no top-level message, `"batch error"` with neither), which is exactly what
the tests in the objects error test file assert. -/
def BatchError.errorString (e : BatchError) : String :=
  if e.message = "" then
    match e.errors with
    | [] => "batch error"
    | first :: _ => "batch error: " ++ first.message
  else
    match e.errors with
    | [] => e.message
    | _ :: _ =>
        e.message ++ ": " ++ String.intercalate "; " (e.errors.map (fun s => s.message))

/-- The `Error()` method of each embedded error value, following
`crm/v3/lists/errors.go` for the typed list errors, the `fmt.Errorf` format
strings of the client methods for `unmarshal` and `plain`, and the message of
the wrapped server error for `hubspot`. -/
def errorMessage : SdkError → String
  | .hubspot h => h.message
  | .listNotFound listID _ => "list " ++ listID ++ " not found"
  | .listValidation field message _ => "validation error on field " ++ field ++ ": " ++ message
  | .listAlreadyExists listName _ => "list with name " ++ listName ++ " already exists"
  | .recordNotFound recordID listID _ => "record " ++ recordID ++ " not found in list " ++ listID
  | .unmarshal call => "failed to unmarshal " ++ call ++ " response"
  | .plain msg => msg
  | .batchPartial _ errs =>
      match errs with
      | [] => "batch operation reported errors"
      | first :: _ => first.errorString

/-- `ParseListError` of `crm/v3/lists/errors.go`: the type assertion on
`*client.HubSpotError` becomes the match on the `hubspot` constructor, and the
Go `switch` on the status becomes the if-chain (a 400 whose category is not
`VALIDATION_ERROR` falls out of the switch and returns the error unchanged). -/
def ParseListError (err : SdkError) (listID : String) : SdkError :=
  match err with
  | .hubspot h =>
      if h.status = 404 then .listNotFound listID h
      else if h.status = 400 then
        (if h.category = "VALIDATION_ERROR" then .listValidation h.message "" h else err)
      else if h.status = 409 then .listAlreadyExists "" h
      else err
  | _ => err

/-- The original server error wrapped by a typed variant (its `Original`
field); `none` for values that are not typed variants of the classifier. -/
def originalOf : SdkError → Option HubSpotError
  | .listNotFound _ o => some o
  | .listValidation _ _ o => some o
  | .listAlreadyExists _ o => some o
  | .recordNotFound _ _ o => some o
  | _ => none

/-- Whether an error value is the structured server error shape (the Go type
assertion `err.(*client.HubSpotError)`). -/
def isHubSpotShape : SdkError → Bool
  | .hubspot _ => true
  | _ => false

/-- C2: the classifier is a pure function implementing exactly the mapping of
the spec's table: 404 yields the not-found variant, 400 with category
VALIDATION_ERROR yields the validation variant, 400 with any other category
and any other status pass through unchanged, 409 yields the already-exists
variant, non-server errors pass through unchanged, and every typed variant
produced carries the original server error in its Original field. -/
theorem parseListError_classifier_table (h : HubSpotError) (listID : String) :
    (h.status = 404 →
      ParseListError (.hubspot h) listID = .listNotFound listID h)
    ∧ (h.status = 400 → h.category = "VALIDATION_ERROR" →
      ParseListError (.hubspot h) listID = .listValidation h.message "" h)
    ∧ (h.status = 400 → h.category ≠ "VALIDATION_ERROR" →
      ParseListError (.hubspot h) listID = .hubspot h)
    ∧ (h.status = 409 →
      ParseListError (.hubspot h) listID = .listAlreadyExists "" h)
    ∧ (h.status ≠ 404 → h.status ≠ 400 → h.status ≠ 409 →
      ParseListError (.hubspot h) listID = .hubspot h)
    ∧ (∀ e : SdkError, isHubSpotShape e = false → ParseListError e listID = e)
    ∧ (∀ o : HubSpotError,
        originalOf (ParseListError (.hubspot h) listID) = some o → o = h) := by
  refine ⟨?_, ?_, ?_, ?_, ?_, ?_, ?_⟩
  · intro h404; simp [ParseListError, h404]
  · intro h400 hcat; simp [ParseListError, h400, hcat]
  · intro h400 hcat; simp [ParseListError, h400, hcat]
  · intro h409
    have h404 : h.status ≠ 404 := by omega
    have h400 : h.status ≠ 400 := by omega
    simp [ParseListError, h404, h400, h409]
  · intro h404 h400 h409; simp [ParseListError, h404, h400, h409]
  · intro e he; cases e <;> simp_all [ParseListError, isHubSpotShape]
  · intro o ho
    unfold ParseListError at ho
    by_cases h404 : h.status = 404
    · simp [h404, originalOf] at ho; exact ho.symm
    · by_cases h400 : h.status = 400
      · by_cases hcat : h.category = "VALIDATION_ERROR"
        · simp [h404, h400, hcat, originalOf] at ho; exact ho.symm
        · simp [h404, h400, hcat, originalOf] at ho
      · by_cases h409 : h.status = 409
        · simp [h404, h400, h409, originalOf] at ho; exact ho.symm
        · simp [h404, h400, h409, originalOf] at ho

/-- Witness for C2: the classifier table evaluated at concrete server
errors, one per row, matching the classifier tests. -/
theorem parseListError_classifier_table_witness :
    ParseListError (.hubspot ⟨404, "", "Object not found"⟩) "list1"
      = .listNotFound "list1" ⟨404, "", "Object not found"⟩
    ∧ ParseListError (.hubspot ⟨400, "VALIDATION_ERROR", "Invalid email format"⟩) "list1"
      = .listValidation "Invalid email format" "" ⟨400, "VALIDATION_ERROR", "Invalid email format"⟩
    ∧ ParseListError (.hubspot ⟨400, "OTHER_ERROR", "Bad request"⟩) "list1"
      = .hubspot ⟨400, "OTHER_ERROR", "Bad request"⟩
    ∧ ParseListError (.hubspot ⟨409, "", "Conflict"⟩) "list1"
      = .listAlreadyExists "" ⟨409, "", "Conflict"⟩
    ∧ ParseListError (.hubspot ⟨500, "", "Internal server error"⟩) "list1"
      = .hubspot ⟨500, "", "Internal server error"⟩
    ∧ ParseListError (.plain "some other error") "list1" = .plain "some other error" := by
  refine ⟨?_, ?_, ?_, ?_, ?_, ?_⟩
  · exact (parseListError_classifier_table ⟨404, "", "Object not found"⟩ "list1").1 rfl
  · exact (parseListError_classifier_table
      ⟨400, "VALIDATION_ERROR", "Invalid email format"⟩ "list1").2.1 rfl rfl
  · exact (parseListError_classifier_table
      ⟨400, "OTHER_ERROR", "Bad request"⟩ "list1").2.2.1 rfl (by decide)
  · exact (parseListError_classifier_table ⟨409, "", "Conflict"⟩ "list1").2.2.2.1 rfl
  · exact (parseListError_classifier_table
      ⟨500, "", "Internal server error"⟩ "list1").2.2.2.2.1
      (by decide) (by decide) (by decide)
  · exact (parseListError_classifier_table ⟨500, "", ""⟩ "list1").2.2.2.2.2.1
      (.plain "some other error") rfl

/-- `client.Request`, the description of one HTTP call.  Modelled from the
spec: the client package is not under `src/`; the spec fixes the fields
(method, interpolated path, query-parameter mapping with last-write-wins on
duplicate keys, optional opaque body payload, resource-type tag, cancellation
token — kept here as a flag recording that a context was attached). -/
structure Request where
  method : String
  path : String
  query : List (String × String)
  body : Option String
  resourceType : String
  hasContext : Bool
deriving Repr, DecidableEq

/-- Write a key into a query-parameter mapping, overwriting the existing
entry for that key if there is one (Go map assignment). -/
def setParam (q : List (String × String)) (key value : String) :
    List (String × String) :=
  match q with
  | [] => [(key, value)]
  | (k, v) :: rest =>
      if k = key then (k, value) :: rest else (k, v) :: setParam rest key value

/-- Read a key from a query-parameter mapping. -/
def getParam (q : List (String × String)) (key : String) : Option String :=
  match q with
  | [] => none
  | (k, v) :: rest => if k = key then some v else getParam rest key

theorem getParam_setParam (q : List (String × String)) (k v key : String) :
    getParam (setParam q k v) key = if k = key then some v else getParam q key := by
  induction q with
  | nil => by_cases h : k = key <;> simp [setParam, getParam, h]
  | cons head rest ih =>
      obtain ⟨k₂, v₂⟩ := head
      by_cases hk : k₂ = k
      · subst hk
        by_cases h : k₂ = key <;> simp [setParam, getParam, h]
      · by_cases h : k₂ = key
        · subst h
          simp [setParam, getParam, hk, Ne.symm hk]
        · simp [setParam, getParam, hk, h, ih]

/-- `client.NewRequest`.  Modelled from the spec: a fresh request with the
given method and path and nothing else set. -/
def NewRequest (method path : String) : Request :=
  ⟨method, path, [], none, "", false⟩

/-- `Request.AddQueryParam`.  Modelled from the spec: appends/overwrites a
query parameter; calling it twice with the same name leaves exactly the last
value. -/
def Request.addQueryParam (req : Request) (key value : String) : Request :=
  { req with query := setParam req.query key value }

/-- `Request.WithContext`.  Modelled from the spec: attaches the caller's
cancellation token and changes nothing else. -/
def Request.withContext (req : Request) : Request :=
  { req with hasContext := true }

/-- `Request.WithResourceType`.  Modelled from the spec: sets the diagnostic
resource-type tag only. -/
def Request.withResourceType (req : Request) (tag : String) : Request :=
  { req with resourceType := tag }

/-- `Request.WithBody`.  Modelled from the spec: attaches the (already
serialized, here opaque) body payload. -/
def Request.withBody (req : Request) (payload : String) : Request :=
  { req with body := some payload }

/-- The functional options of `crm/v3/deals/options.go`, embedded as a deep
datatype; `apply` below is the closure each constructor returns. -/
inductive DealOption where
  | withProperties (properties : List String)
  | withPropertiesWithHistory (properties : List String)
  | withAssociations (associations : List String)
  | withLimit (limit : Int)
  | withAfter (after : String)
  | withArchived
  | withIDProperty (property : String)
deriving Repr, DecidableEq

/-- The query key each deal option writes (`crm/v3/deals/options.go`). -/
def DealOption.key : DealOption → String
  | .withProperties _ => "properties"
  | .withPropertiesWithHistory _ => "propertiesWithHistory"
  | .withAssociations _ => "associations"
  | .withLimit _ => "limit"
  | .withAfter _ => "after"
  | .withArchived => "archived"
  | .withIDProperty _ => "idProperty"

/-- The query value each deal option writes: `strings.Join(xs, ",")` for the
list options, `fmt.Sprintf("%d", n)` for the limit, the raw string otherwise
(`crm/v3/deals/options.go`). -/
def DealOption.value : DealOption → String
  | .withProperties ps => String.intercalate "," ps
  | .withPropertiesWithHistory ps => String.intercalate "," ps
  | .withAssociations as => String.intercalate "," as
  | .withLimit n => toString n
  | .withAfter a => a
  | .withArchived => "true"
  | .withIDProperty p => p

/-- Applying one deal option: every closure in `crm/v3/deals/options.go` is a
single `req.AddQueryParam(key, value)` call. -/
def DealOption.apply (o : DealOption) (req : Request) : Request :=
  req.addQueryParam o.key o.value

/-- The option loop of the deals client methods:
`for _, opt := range opts { opt(req) }`. -/
def applyOptions (opts : List DealOption) (req : Request) : Request :=
  opts.foldl (fun r o => o.apply r) req

/-- The last value written to a key by a sequence of options, if any. -/
def lastWritten (opts : List DealOption) (key : String) : Option String :=
  match opts with
  | [] => none
  | o :: rest =>
      match lastWritten rest key with
      | some v => some v
      | none => if o.key = key then some o.value else none

/-- C3: folding any sequence of functional options over any request yields a
query-parameter mapping in which each key holds exactly the value written by
the last option that wrote it (keys no option wrote are unchanged), and the
options change nothing in the request outside the query-parameter mapping. -/
theorem dealOptions_last_write_wins (req : Request) (opts : List DealOption)
    (key : String) :
    (getParam (applyOptions opts req).query key
      = match lastWritten opts key with
        | some v => some v
        | none => getParam req.query key)
    ∧ (applyOptions opts req).method = req.method
    ∧ (applyOptions opts req).path = req.path
    ∧ (applyOptions opts req).body = req.body
    ∧ (applyOptions opts req).resourceType = req.resourceType
    ∧ (applyOptions opts req).hasContext = req.hasContext := by
  induction opts generalizing req with
  | nil => simp [applyOptions, lastWritten]
  | cons o rest ih =>
      have step : applyOptions (o :: rest) req = applyOptions rest (o.apply req) := rfl
      obtain ⟨ihq, ihm, ihp, ihb, ihr, ihc⟩ := ih (o.apply req)
      rw [step]
      refine ⟨?_, ?_, ?_, ?_, ?_, ?_⟩
      · rw [ihq]
        have hget : getParam (o.apply req).query key
            = if o.key = key then some o.value else getParam req.query key := by
          simp [DealOption.apply, Request.addQueryParam, getParam_setParam]
        cases hrest : lastWritten rest key with
        | some v => simp [lastWritten, hrest]
        | none =>
            rw [hget]
            by_cases hk : o.key = key <;> simp [lastWritten, hrest, hk]
      · rw [ihm]; rfl
      · rw [ihp]; rfl
      · rw [ihb]; rfl
      · rw [ihr]; rfl
      · rw [ihc]; rfl

/-- The plural/singular display labels nested struct of the schemas models
(`crm/v3/schemas` models file). -/
structure SchemaLabels where
  plural : String
  singular : String

/-- The `ModificationMetadata` nested struct of a schema property
(`crm/v3/schemas` models file). -/
structure ModificationMetadata where
  readOnlyValue : Bool
  readOnlyDefinition : Bool
  archivable : Bool
  readOnlyOptions : Bool

/-- A select option of a schema property (`Option` in the schemas models
file; renamed to avoid clashing with the Lean `Option`). -/
structure PropertyOption where
  hidden : Bool
  label : String
  value : String
  displayOrder : Int
  description : String

/-- A schema property (`Property` of the schemas models file).  The Go string
enums `NumberDisplayHint` and `DataSensitivity` are plain strings here; their
pointer types become `Option String`. -/
structure SchemaProperty where
  description : String
  type : String
  options : List PropertyOption
  label : String
  groupName : String
  name : String
  fieldType : String
  hidden : Bool
  displayOrder : Int
  showCurrencySymbol : Bool
  hubspotDefined : Bool
  createdAt : String
  archived : Bool
  hasUniqueValue : Bool
  calculated : Bool
  externalOptions : Bool
  udpatedAt : String
  createdUserID : String
  modificationMetadata : ModificationMetadata
  sensitiveDataCategories : List String
  searchableInGlobalSearch : Bool
  numberDisplayHint : Option String
  formField : Bool
  dataSensitivity : Option String
  archivedAt : String
  referencedObjectType : String
  calculationFormula : String
  updatedUserID : String

/-- A schema association (`Association` of the schemas models file). -/
structure SchemaAssociation where
  fromObjectTypeID : String
  id : String
  toObjectTypeID : String
  createdAt : String
  name : String
  updatedAt : String

/-- A schema (`Schema` of the schemas models file). -/
structure Schema where
  associations : List SchemaAssociation
  labels : SchemaLabels
  requiredProperties : List String
  name : String
  id : String
  properties : List SchemaProperty
  secondaryDisplayProperties : List String
  createdByUserID : Int
  objectTypeID : String
  description : String
  updatedByUserID : Int
  fullyQualifiedName : String
  archived : Bool
  createdAt : String
  searchableProperties : List String
  portalID : Int
  primaryDisplayProperty : String
  updatedAt : String

/-- `GetAllSchemasResponse` of the schemas models file. -/
structure GetAllSchemasResponse where
  results : List Schema

/-- `CreateNewSchemaInput` of the schemas models file. -/
structure CreateNewSchemaInput where
  requiredProperties : List String
  name : String
  associatedObjects : List String
  properties : List SchemaProperty
  labels : SchemaLabels
  secondaryDisplayProperties : List String
  searchableProperties : List String
  primaryDisplayProperty : String
  description : String

/-- `CreateNewAssociationSchemaInput` of the schemas models file. -/
structure CreateNewAssociationSchemaInput where
  fromObjectTypeID : String
  toObjectTypeID : String
  name : String

/-- `UpdateSchemaInput` of the schemas models file. -/
structure UpdateSchemaInput where
  secondaryDisplayProperties : List String
  requiredProperties : List String
  searchableProperties : List String
  clearDescription : Bool
  primaryDisplayProperty : String
  description : String
  restorable : Bool
  labels : SchemaLabels

/-- The request `CreateNewSchema` of `crm/v3/schemas/client.go` dispatches:
`NewRequest("POST", "/crm-object-schemas/v3/schemas")`, a context and the
resource-type tag — the method takes `input` but never calls `WithBody`. -/
def createNewSchemaRequest (_input : CreateNewSchemaInput) : Request :=
  ((NewRequest "POST" "/crm-object-schemas/v3/schemas").withContext).withResourceType
    "schemas"

/-- The request `CreateNewAssociationSchema` of `crm/v3/schemas/client.go`
dispatches — the method takes `input` but never calls `WithBody`. -/
def createNewAssociationSchemaRequest (objectType : String)
    (_input : CreateNewAssociationSchemaInput) : Request :=
  ((NewRequest "POST"
    ("/crm-object-schemas/v3/schemas/" ++ objectType ++ "/associations")).withContext).withResourceType
    "schemas"

/-- The request `UpdateSchema` of `crm/v3/schemas/client.go` dispatches — the
method takes `input` but never calls `WithBody`. -/
def updateSchemaRequest (objectType : String) (_input : UpdateSchemaInput) : Request :=
  ((NewRequest "PATCH"
    ("/crm-object-schemas/v3/schemas/" ++ objectType)).withContext).withResourceType
    "schemas"

/-- C9: `CreateNewSchema`, `CreateNewAssociationSchema` and `UpdateSchema`
dispatch a request with no body attached, so the wire request each of them
sends is identical for any two input arguments. -/
theorem schemas_write_methods_ignore_input
    (i₁ i₂ : CreateNewSchemaInput) (j₁ j₂ : UpdateSchemaInput)
    (k₁ k₂ : CreateNewAssociationSchemaInput) (objectType : String) :
    createNewSchemaRequest i₁ = createNewSchemaRequest i₂
    ∧ (createNewSchemaRequest i₁).body = none
    ∧ updateSchemaRequest objectType j₁ = updateSchemaRequest objectType j₂
    ∧ (updateSchemaRequest objectType j₁).body = none
    ∧ createNewAssociationSchemaRequest objectType k₁
        = createNewAssociationSchemaRequest objectType k₂
    ∧ (createNewAssociationSchemaRequest objectType k₁).body = none :=
  ⟨rfl, rfl, rfl, rfl, rfl, rfl⟩

/-- A string field under Go `encoding/json` semantics: a missing key or a
JSON null leaves the zero value, a string decodes, any other shape is an
unmarshal error. -/
def jString : Option Jv → Option String
  | none => some ""
  | some .null => some ""
  | some (.str s) => some s
  | some _ => none

/-- A bool field under Go `encoding/json` semantics. -/
def jBool : Option Jv → Option Bool
  | none => some false
  | some .null => some false
  | some (.bool b) => some b
  | some _ => none

/-- An int field under Go `encoding/json` semantics. -/
def jInt : Option Jv → Option Int
  | none => some 0
  | some .null => some 0
  | some (.num n) => some n
  | some _ => none

/-- A `[]string` field under Go `encoding/json` semantics: missing or null is
the nil slice, an array of strings decodes, anything else fails. -/
def jStringList : Option Jv → Option (List String)
  | none => some []
  | some .null => some []
  | some (.arr xs) =>
      xs.mapM (fun v => match v with | .str s => some s | _ => none)
  | some _ => none

/-- A `*string`-shaped field (pointer to a string enum): missing or null is
the nil pointer. -/
def jStringPtr : Option Jv → Option (Option String)
  | none => some none
  | some .null => some none
  | some (.str s) => some (some s)
  | some _ => none

/-- A `map[string]string` field under Go `encoding/json` semantics. -/
def jStringMap : Option Jv → Option (List (String × String))
  | none => some []
  | some .null => some []
  | some (.obj fs) =>
      fs.mapM (fun kv => match kv.2 with | Jv.str s => some (kv.1, s) | _ => none)
  | some _ => none

/-- A `map[string][]string` field under Go `encoding/json` semantics. -/
def jStringListMap : Option Jv → Option (List (String × List String))
  | none => some []
  | some .null => some []
  | some (.obj fs) =>
      fs.mapM (fun kv => (jStringList (some kv.2)).map (fun l => (kv.1, l)))
  | some _ => none

/-- A required string field of the required-tag unmarshaller.  Modelled from
the spec: `internal/tools` is not under `src/`; a field tagged
`required:"yes"` must be present in the object. -/
def jRequiredString (v : Option Jv) : Option String :=
  match v with
  | some (.str s) => some s
  | _ => none

/-- A required bool field of the required-tag unmarshaller (modelled, as for
`jRequiredString`). -/
def jRequiredBool (v : Option Jv) : Option Bool :=
  match v with
  | some (.bool b) => some b
  | _ => none

/-- A required array field of the required-tag unmarshaller (modelled):
present and an array, each element decoded by `dec`. -/
def jRequiredArr {α : Type} (dec : Jv → Option α) (v : Option Jv) :
    Option (List α) :=
  match v with
  | some (.arr xs) => xs.mapM dec
  | _ => none

/-- Decoding a property select option (required-tag unmarshaller, modelled:
`hidden`, `label` and `value` are tagged required). -/
def decodePropertyOption : Jv → Option PropertyOption
  | .obj fs =>
      match jRequiredBool (findField fs "hidden"),
            jRequiredString (findField fs "label"),
            jRequiredString (findField fs "value"),
            jInt (findField fs "displayOrder"),
            jString (findField fs "description") with
      | some hidden, some label, some value, some displayOrder, some description =>
          some ⟨hidden, label, value, displayOrder, description⟩
      | _, _, _, _, _ => none
  | _ => none

/-- Decoding the nested labels struct (missing or null leaves the zero
struct, as Go leaves an untouched nested struct). -/
def decodeSchemaLabels : Option Jv → Option SchemaLabels
  | none => some ⟨"", ""⟩
  | some .null => some ⟨"", ""⟩
  | some (.obj fs) =>
      match jString (findField fs "plural"), jString (findField fs "singular") with
      | some plural, some singular => some ⟨plural, singular⟩
      | _, _ => none
  | some _ => none

/-- A required nested labels field of the required-tag unmarshaller
(modelled): the key must be present. -/
def jRequiredLabels : Option Jv → Option SchemaLabels
  | some v => decodeSchemaLabels (some v)
  | none => none

/-- Decoding the nested modification metadata struct: a missing or null field
leaves the zero struct; when the object is present its first three fields are
tagged required. -/
def decodeModificationMetadata : Option Jv → Option ModificationMetadata
  | none => some ⟨false, false, false, false⟩
  | some .null => some ⟨false, false, false, false⟩
  | some (.obj fs) =>
      match jRequiredBool (findField fs "readOnlyValue"),
            jRequiredBool (findField fs "readOnlyDefinition"),
            jRequiredBool (findField fs "archivable"),
            jBool (findField fs "readOnlyOptions") with
      | some readOnlyValue, some readOnlyDefinition, some archivable,
        some readOnlyOptions =>
          some ⟨readOnlyValue, readOnlyDefinition, archivable, readOnlyOptions⟩
      | _, _, _, _ => none
  | some _ => none

/-- Decoding a schema property (required-tag unmarshaller, modelled; the
required fields follow the `required:"yes"` tags of the models file). -/
def decodeSchemaProperty : Jv → Option SchemaProperty
  | .obj fs =>
      match jRequiredString (findField fs "description"),
            jRequiredString (findField fs "type"),
            jRequiredArr decodePropertyOption (findField fs "options"),
            jRequiredString (findField fs "label"),
            jRequiredString (findField fs "groupName"),
            jRequiredString (findField fs "name"),
            jRequiredString (findField fs "fieldType"),
            jBool (findField fs "hidden"),
            jInt (findField fs "displayOrder"),
            jBool (findField fs "showCurrencySymbol"),
            jBool (findField fs "hubspotDefined"),
            jString (findField fs "createdAt"),
            jBool (findField fs "archived"),
            jBool (findField fs "hasUniqueValue"),
            jBool (findField fs "calculated"),
            jBool (findField fs "externalOptions"),
            jString (findField fs "updatedAt"),
            jString (findField fs "createdUserId"),
            decodeModificationMetadata (findField fs "ModificationMetadata"),
            jStringList (findField fs "sensitiveDataCategories"),
            jBool (findField fs "searchableInGlobalSearch"),
            jStringPtr (findField fs "numberDisplayHint"),
            jBool (findField fs "formField"),
            jStringPtr (findField fs "dataSensitivity"),
            jString (findField fs "archivedAt"),
            jString (findField fs "referencedObjectType"),
            jString (findField fs "CalculationFormula"),
            jString (findField fs "updatedUserID") with
      | some description, some type, some options, some label, some groupName,
        some name, some fieldType, some hidden, some displayOrder,
        some showCurrencySymbol, some hubspotDefined, some createdAt,
        some archived, some hasUniqueValue, some calculated,
        some externalOptions, some udpatedAt, some createdUserID,
        some modificationMetadata, some sensitiveDataCategories,
        some searchableInGlobalSearch, some numberDisplayHint, some formField,
        some dataSensitivity, some archivedAt, some referencedObjectType,
        some calculationFormula, some updatedUserID =>
          some ⟨description, type, options, label, groupName, name, fieldType,
            hidden, displayOrder, showCurrencySymbol, hubspotDefined, createdAt,
            archived, hasUniqueValue, calculated, externalOptions, udpatedAt,
            createdUserID, modificationMetadata, sensitiveDataCategories,
            searchableInGlobalSearch, numberDisplayHint, formField,
            dataSensitivity, archivedAt, referencedObjectType,
            calculationFormula, updatedUserID⟩
      | _, _, _, _, _, _, _, _, _, _, _, _, _, _, _, _, _, _, _, _, _, _, _, _,
        _, _, _, _ => none
  | _ => none

/-- Decoding a schema association (its first three fields are tagged
required). -/
def decodeSchemaAssociation : Jv → Option SchemaAssociation
  | .obj fs =>
      match jRequiredString (findField fs "fromObjectTypeId"),
            jRequiredString (findField fs "id"),
            jRequiredString (findField fs "toObjectTypeId"),
            jString (findField fs "createdAt"),
            jString (findField fs "name"),
            jString (findField fs "updatedAt") with
      | some fromObjectTypeID, some id, some toObjectTypeID, some createdAt,
        some name, some updatedAt =>
          some ⟨fromObjectTypeID, id, toObjectTypeID, createdAt, name, updatedAt⟩
      | _, _, _, _, _, _ => none
  | _ => none

/-- Decoding a schema (required-tag unmarshaller, modelled; required fields
per the tags of the models file — `labels` is tagged required, so its key
must be present). -/
def decodeSchema : Jv → Option Schema
  | .obj fs =>
      match jRequiredArr decodeSchemaAssociation (findField fs "associations"),
            jRequiredLabels (findField fs "labels"),
            jRequiredArr (fun v => match v with | Jv.str s => some s | _ => none)
              (findField fs "requiredProperties"),
            jRequiredString (findField fs "name"),
            jRequiredString (findField fs "id"),
            jRequiredArr decodeSchemaProperty (findField fs "properties"),
            jStringList (findField fs "secondaryDisplayProperties"),
            jInt (findField fs "createdByUserId"),
            jString (findField fs "objectTypeID"),
            jString (findField fs "description"),
            jInt (findField fs "updatedByUserId"),
            jString (findField fs "fullyQualifiedName"),
            jBool (findField fs "archived"),
            jString (findField fs "createdAt"),
            jStringList (findField fs "searchableProperties"),
            jInt (findField fs "portalId"),
            jString (findField fs "primaryDisplayProperty"),
            jString (findField fs "updatedAt") with
      | some associations, some labels, some requiredProperties, some name,
        some id, some properties, some secondaryDisplayProperties,
        some createdByUserID, some objectTypeID, some description,
        some updatedByUserID, some fullyQualifiedName, some archived,
        some createdAt, some searchableProperties, some portalID,
        some primaryDisplayProperty, some updatedAt =>
          some ⟨associations, labels, requiredProperties, name, id, properties,
            secondaryDisplayProperties, createdByUserID, objectTypeID,
            description, updatedByUserID, fullyQualifiedName, archived,
            createdAt, searchableProperties, portalID, primaryDisplayProperty,
            updatedAt⟩
      | _, _, _, _, _, _, _, _, _, _, _, _, _, _, _, _, _, _ => none
  | _ => none

/-- Decoding the all-schemas envelope: its `results` field is tagged
required, so the key must be present and hold an array of schemas. -/
def decodeGetAllSchemasResponse : Jv → Option GetAllSchemasResponse
  | .obj fs => do
      let results ← jRequiredArr decodeSchema (findField fs "results")
      some ⟨results⟩
  | _ => none

/-- The outcome the shared dispatcher hands a client method: either the error
`Do` returned (non-2xx server rejection or transport failure), or a 2xx
response body — `none` when the body is not syntactically valid JSON. -/
inductive DoResult where
  | fail (e : SdkError)
  | ok (body : Option Jv)

/-- `GetAllSchemas` of `crm/v3/schemas/client.go` after the request is
dispatched: propagate the dispatcher's error, fail on an undecodable body
with the unmarshal wrapper, and on an empty results list return the parsed
struct together with the `no schemas found` error. -/
def GetAllSchemas (outcome : DoResult) :
    Option GetAllSchemasResponse × Option SdkError :=
  match outcome with
  | .fail e => (none, some e)
  | .ok body =>
      match body.bind decodeGetAllSchemasResponse with
      | none => (none, some (.unmarshal "schemas"))
      | some schemas =>
          if schemas.results.length = 0 then
            (some schemas, some (.plain "no schemas found"))
          else (some schemas, none)

/-- C5: a 200 response whose body parses to an empty results array makes
`GetAllSchemas` return a non-nil error whose message is `no schemas found`,
together with the (empty) parsed response struct rather than nil. -/
theorem getAllSchemas_empty_results_error (j : Jv) (r : GetAllSchemasResponse)
    (hdec : decodeGetAllSchemasResponse j = some r) (hempty : r.results = []) :
    GetAllSchemas (.ok (some j)) = (some r, some (.plain "no schemas found"))
    ∧ errorMessage (.plain "no schemas found") = "no schemas found" := by
  constructor
  · simp [GetAllSchemas, Option.bind, hdec, hempty]
  · rfl

/-- Witness for C5: the body `{"results": []}` of the no-results test. -/
theorem getAllSchemas_empty_results_error_witness :
    decodeGetAllSchemasResponse (.obj [("results", .arr [])]) = some ⟨[]⟩
    ∧ GetAllSchemas (.ok (some (.obj [("results", .arr [])])))
      = (some ⟨[]⟩, some (.plain "no schemas found")) :=
  ⟨rfl, (getAllSchemas_empty_results_error (.obj [("results", .arr [])]) ⟨[]⟩ rfl rfl).1⟩

/-- An array-valued slice field under Go `encoding/json` semantics: missing
or null is the nil slice, an array decodes elementwise, anything else fails. -/
def jArr {α : Type} (dec : Jv → Option α) : Option Jv → Option (List α)
  | none => some []
  | some .null => some []
  | some (.arr xs) => xs.mapM dec
  | some _ => none

/-- `PagingLink` of the models files (companies and associations define the
same struct). -/
structure PagingLink where
  after : String
  link : String
deriving Repr, DecidableEq

/-- `Paging` of the models files: optional next and prev links. -/
structure Paging where
  next : Option PagingLink
  prev : Option PagingLink
deriving Repr, DecidableEq

/-- Decoding a `*PagingLink` field: missing or null is the nil pointer. -/
def decodePagingLinkPtr : Option Jv → Option (Option PagingLink)
  | none => some none
  | some .null => some none
  | some (.obj fs) =>
      match jString (findField fs "after"), jString (findField fs "link") with
      | some after, some link => some (some ⟨after, link⟩)
      | _, _ => none
  | some _ => none

/-- Decoding a `*Paging` field: missing or null is the nil pointer. -/
def decodePagingPtr : Option Jv → Option (Option Paging)
  | none => some none
  | some .null => some none
  | some (.obj fs) =>
      match decodePagingLinkPtr (findField fs "next"),
            decodePagingLinkPtr (findField fs "prev") with
      | some next, some prev => some (some ⟨next, prev⟩)
      | _, _ => none
  | some _ => none

/-- A deal object.  Modelled from the spec: the deals models file is not
under `src/`; the shape (id, properties map, createdAt, updatedAt, archived)
is the one every deals client test constructs and reads. -/
structure Deal where
  id : String
  properties : List (String × String)
  createdAt : String
  updatedAt : String
  archived : Bool
deriving Repr, DecidableEq

/-- Decoding a deal under Go `encoding/json` semantics. -/
def decodeDeal : Jv → Option Deal
  | .obj fs =>
      match jString (findField fs "id"),
            jStringMap (findField fs "properties"),
            jString (findField fs "createdAt"),
            jString (findField fs "updatedAt"),
            jBool (findField fs "archived") with
      | some id, some properties, some createdAt, some updatedAt, some archived =>
          some ⟨id, properties, createdAt, updatedAt, archived⟩
      | _, _, _, _, _ => none
  | _ => none

/-- `ListDealsResponse`.  Modelled from the spec: the deals models file is
not under `src/`; the list envelope is a results array plus an optional
paging cursor, as for the companies list response and as the tests encode. -/
structure ListDealsResponse where
  results : List Deal
  paging : Option Paging
deriving Repr, DecidableEq

/-- Decoding the deals list envelope. -/
def decodeListDealsResponse : Jv → Option ListDealsResponse
  | .obj fs =>
      match jArr decodeDeal (findField fs "results"),
            decodePagingPtr (findField fs "paging") with
      | some results, some paging => some ⟨results, paging⟩
      | _, _ => none
  | _ => none

/-- `PropertyWithHistory` of `crm/v3/companies/models.go`. -/
structure PropertyWithHistory where
  value : String
  timestamp : String
  sourceType : String
  sourceID : String
  sourceLabel : String
  updatedByUserID : Int
deriving Repr, DecidableEq

/-- Decoding a historical property value. -/
def decodePropertyWithHistory : Jv → Option PropertyWithHistory
  | .obj fs =>
      match jString (findField fs "value"),
            jString (findField fs "timestamp"),
            jString (findField fs "sourceType"),
            jString (findField fs "sourceId"),
            jString (findField fs "sourceLabel"),
            jInt (findField fs "updatedByUserId") with
      | some value, some timestamp, some sourceType, some sourceID,
        some sourceLabel, some updatedByUserID =>
          some ⟨value, timestamp, sourceType, sourceID, sourceLabel, updatedByUserID⟩
      | _, _, _, _, _, _ => none
  | _ => none

/-- A `map[string][]PropertyWithHistory` field under Go `encoding/json`
semantics. -/
def jHistoryMap : Option Jv → Option (List (String × List PropertyWithHistory))
  | none => some []
  | some .null => some []
  | some (.obj fs) =>
      fs.mapM (fun kv =>
        (jArr decodePropertyWithHistory (some kv.2)).map (fun l => (kv.1, l)))
  | some _ => none

/-- `Company` of `crm/v3/companies/models.go`. -/
structure Company where
  id : String
  properties : List (String × String)
  propertiesWithHistory : List (String × List PropertyWithHistory)
  createdAt : String
  updatedAt : String
  archived : Bool
  archivedAt : String
deriving Repr, DecidableEq

/-- Decoding a company under Go `encoding/json` semantics. -/
def decodeCompany : Jv → Option Company
  | .obj fs =>
      match jString (findField fs "id"),
            jStringMap (findField fs "properties"),
            jHistoryMap (findField fs "propertiesWithHistory"),
            jString (findField fs "createdAt"),
            jString (findField fs "updatedAt"),
            jBool (findField fs "archived"),
            jString (findField fs "archivedAt") with
      | some id, some properties, some propertiesWithHistory, some createdAt,
        some updatedAt, some archived, some archivedAt =>
          some ⟨id, properties, propertiesWithHistory, createdAt, updatedAt,
            archived, archivedAt⟩
      | _, _, _, _, _, _, _ => none
  | _ => none

/-- `ListCompaniesResponse` of `crm/v3/companies/models.go`. -/
structure ListCompaniesResponse where
  results : List Company
  paging : Option Paging
deriving Repr, DecidableEq

/-- Decoding the companies list envelope. -/
def decodeListCompaniesResponse : Jv → Option ListCompaniesResponse
  | .obj fs =>
      match jArr decodeCompany (findField fs "results"),
            decodePagingPtr (findField fs "paging") with
      | some results, some paging => some ⟨results, paging⟩
      | _, _ => none
  | _ => none

/-- `AssociationSpec` of `crm/v4/associations/models.go`. -/
structure AssociationSpec where
  associationCategory : String
  associationTypeID : Int
deriving Repr, DecidableEq

/-- Decoding an association spec. -/
def decodeAssociationSpec : Jv → Option AssociationSpec
  | .obj fs =>
      match jString (findField fs "associationCategory"),
            jInt (findField fs "associationTypeId") with
      | some associationCategory, some associationTypeID =>
          some ⟨associationCategory, associationTypeID⟩
      | _, _ => none
  | _ => none

/-- `AssociatedObject` of `crm/v4/associations/models.go`. -/
structure AssociatedObject where
  toObjectID : String
  associationTypes : List AssociationSpec
deriving Repr, DecidableEq

/-- Decoding an associated object. -/
def decodeAssociatedObject : Jv → Option AssociatedObject
  | .obj fs =>
      match jString (findField fs "toObjectId"),
            jArr decodeAssociationSpec (findField fs "associationTypes") with
      | some toObjectID, some associationTypes =>
          some ⟨toObjectID, associationTypes⟩
      | _, _ => none
  | _ => none

/-- `ListAssociationsResponse` of `crm/v4/associations/models.go`. -/
structure ListAssociationsResponse where
  results : List AssociatedObject
  paging : Option Paging
deriving Repr, DecidableEq

/-- Decoding the associations list envelope. -/
def decodeListAssociationsResponse : Jv → Option ListAssociationsResponse
  | .obj fs =>
      match jArr decodeAssociatedObject (findField fs "results"),
            decodePagingPtr (findField fs "paging") with
      | some results, some paging => some ⟨results, paging⟩
      | _, _ => none
  | _ => none

/-- `GetDeal` of `crm/v3/deals/client.go` after dispatch: propagate the
dispatcher's error unclassified, wrap an undecodable body as
`failed to unmarshal deal response`, otherwise return the deal. -/
def GetDeal (outcome : DoResult) : Option Deal × Option SdkError :=
  match outcome with
  | .fail e => (none, some e)
  | .ok body =>
      match body.bind decodeDeal with
      | none => (none, some (.unmarshal "deal"))
      | some deal => (some deal, none)

/-- `ListDeals` of `crm/v3/deals/client.go` after dispatch: note there is no
emptiness check — whatever decodes is returned with a nil error. -/
def ListDeals (outcome : DoResult) : Option ListDealsResponse × Option SdkError :=
  match outcome with
  | .fail e => (none, some e)
  | .ok body =>
      match body.bind decodeListDealsResponse with
      | none => (none, some (.unmarshal "deals list"))
      | some r => (some r, none)

/-- `ListCompanies` of `crm/v3/companies/client.go` after dispatch — as for
`ListDeals`, no emptiness check. -/
def ListCompanies (outcome : DoResult) :
    Option ListCompaniesResponse × Option SdkError :=
  match outcome with
  | .fail e => (none, some e)
  | .ok body =>
      match body.bind decodeListCompaniesResponse with
      | none => (none, some (.unmarshal "companies list"))
      | some r => (some r, none)

/-- `ListAssociations` of the associations client source — as for
`ListDeals`, no emptiness check. -/
def ListAssociations (outcome : DoResult) :
    Option ListAssociationsResponse × Option SdkError :=
  match outcome with
  | .fail e => (none, some e)
  | .ok body =>
      match body.bind decodeListAssociationsResponse with
      | none => (none, some (.unmarshal "associations"))
      | some r => (some r, none)

/-- An object of the generic objects client.  Modelled from the spec: the
objects package is not under `src/`; the shape is the one its tests construct
(identical to the deal shape). -/
structure CrmObject where
  id : String
  properties : List (String × String)
  createdAt : String
  updatedAt : String
  archived : Bool
deriving Repr, DecidableEq

/-- Decoding a generic object. -/
def decodeCrmObject : Jv → Option CrmObject
  | .obj fs =>
      match jString (findField fs "id"),
            jStringMap (findField fs "properties"),
            jString (findField fs "createdAt"),
            jString (findField fs "updatedAt"),
            jBool (findField fs "archived") with
      | some id, some properties, some createdAt, some updatedAt, some archived =>
          some ⟨id, properties, createdAt, updatedAt, archived⟩
      | _, _, _, _, _ => none
  | _ => none

/-- The objects list envelope (results plus optional paging).  Modelled from
the spec, as for `CrmObject`. -/
structure ListObjectsEnvelope where
  results : List CrmObject
  paging : Option Paging
deriving Repr, DecidableEq

/-- Decoding the objects list envelope. -/
def decodeListObjectsEnvelope : Jv → Option ListObjectsEnvelope
  | .obj fs =>
      match jArr decodeCrmObject (findField fs "results"),
            decodePagingPtr (findField fs "paging") with
      | some results, some paging => some ⟨results, paging⟩
      | _, _ => none
  | _ => none

/-- `ListObjects` of the objects client after dispatch.  Modelled from the
spec: the objects client implementation is not under `src/`; its empty-result
behaviour is fixed by the test `TestListObjects_NoResults`
(`src/crm/v3/objects/client_test.go`), which requires nil objects and an
error containing `no objects found` when the 200 body is `{"results": []}`,
unlike the ordinary list calls. -/
def ListObjects (outcome : DoResult) :
    Option (List CrmObject) × Option Paging × Option SdkError :=
  match outcome with
  | .fail e => (none, none, some e)
  | .ok body =>
      match body.bind decodeListObjectsEnvelope with
      | none => (none, none, some (.unmarshal "objects"))
      | some r =>
          if r.results.length = 0 then
            (none, none, some (.plain "no objects found"))
          else (some r.results, r.paging, none)

/-- The batch response envelope of the objects client (`status`, `results`,
`numErrors`, `errors`, timestamps).  Modelled from the spec: the objects
package is not under `src/`; the spec and the batch tests fix the fields. -/
structure BatchObjectsResponse where
  status : String
  results : List CrmObject
  numErrors : Int
  errors : List BatchError
  startedAt : String
  completedAt : String
deriving Repr, DecidableEq

/-- Decoding a batch sub-error (`ObjectError`). -/
def decodeObjectError : Jv → Option ObjectError
  | .obj fs =>
      match jString (findField fs "message"),
            jString (findField fs "subCategory") with
      | some message, some subCategory => some ⟨message, subCategory⟩
      | _, _ => none
  | _ => none

/-- Decoding a batch item error (`BatchError`). -/
def decodeBatchError : Jv → Option BatchError
  | .obj fs =>
      match jString (findField fs "status"),
            jString (findField fs "category"),
            jString (findField fs "message"),
            jStringListMap (findField fs "context"),
            jStringMap (findField fs "links"),
            jArr decodeObjectError (findField fs "errors") with
      | some status, some category, some message, some context, some links,
        some errors =>
          some ⟨status, category, message, context, links, errors⟩
      | _, _, _, _, _, _ => none
  | _ => none

/-- Decoding the batch response envelope. -/
def decodeBatchObjectsResponse : Jv → Option BatchObjectsResponse
  | .obj fs =>
      match jString (findField fs "status"),
            jArr decodeCrmObject (findField fs "results"),
            jInt (findField fs "numErrors"),
            jArr decodeBatchError (findField fs "errors"),
            jString (findField fs "startedAt"),
            jString (findField fs "completedAt") with
      | some status, some results, some numErrors, some errors, some startedAt,
        some completedAt =>
          some ⟨status, results, numErrors, errors, startedAt, completedAt⟩
      | _, _, _, _, _, _ => none
  | _ => none

/-- The shared response-handling tail of the objects batch calls
(`BatchReadObjects`, `BatchCreateObjects`, `BatchUpdateObjects`,
`BatchCreateOrUpdateObjects`, `BatchArchiveObjects`).  Modelled from the
spec: the objects client implementation is not under `src/`; the spec's
design rule (report an error whenever `numErrors > 0`, regardless of HTTP
status or the `status` field, while still returning the full result) is
what the `_WithErrors` tests of every batch method require. -/
def batchObjectsCall (outcome : DoResult) :
    Option BatchObjectsResponse × Option SdkError :=
  match outcome with
  | .fail e => (none, some e)
  | .ok body =>
      match body.bind decodeBatchObjectsResponse with
      | none => (none, some (.unmarshal "batch"))
      | some r =>
          if r.numErrors > 0 then (some r, some (.batchPartial r.numErrors r.errors))
          else (some r, none)

/-- C1: whenever a 200 batch response decodes with `numErrors > 0`, the
objects batch call returns a non-nil error — with no condition on the
response's `status` field, so also when it is COMPLETE — and simultaneously
returns the full decoded batch result (results, error count and item errors
populated from the response). -/
theorem objectsBatch_partial_failure_surfaced (j : Jv) (r : BatchObjectsResponse)
    (hdec : decodeBatchObjectsResponse j = some r) (hn : r.numErrors > 0) :
    batchObjectsCall (.ok (some j))
      = (some r, some (.batchPartial r.numErrors r.errors))
    ∧ (batchObjectsCall (.ok (some j))).2 ≠ none := by
  have hcall : batchObjectsCall (.ok (some j))
      = (some r, some (.batchPartial r.numErrors r.errors)) := by
    simp [batchObjectsCall, Option.bind, hdec, hn]
  exact ⟨hcall, by rw [hcall]; simp⟩

/-- The response body of the batch-archive partial-failure test: HTTP 200,
`status` COMPLETE, empty results, one item error. -/
def batchWithErrorsBody : Jv :=
  .obj
    [("completedAt", .str "2024-01-01T00:00:05.000Z"),
     ("startedAt", .str "2024-01-01T00:00:00.000Z"),
     ("status", .str "COMPLETE"),
     ("results", .arr []),
     ("numErrors", .num 1),
     ("errors", .arr
       [.obj [("status", .str "error"),
              ("category", .str "OBJECT_NOT_FOUND"),
              ("message", .str "Object not found"),
              ("context", .obj []),
              ("links", .obj []),
              ("errors", .arr
                [.obj [("message", .str "Object with ID 99999 not found")]])]])]

/-- What `batchWithErrorsBody` decodes to. -/
def batchWithErrorsParsed : BatchObjectsResponse :=
  ⟨"COMPLETE", [], 1,
    [⟨"error", "OBJECT_NOT_FOUND", "Object not found", [], [],
      [⟨"Object with ID 99999 not found", ""⟩]⟩],
    "2024-01-01T00:00:00.000Z", "2024-01-01T00:00:05.000Z"⟩

/-- Witness for C1: the exact response body of the batch-archive
partial-failure test — HTTP 200, `status` COMPLETE, one item error — yields
both the populated result and a non-nil error. -/
theorem objectsBatch_partial_failure_surfaced_witness :
    decodeBatchObjectsResponse batchWithErrorsBody = some batchWithErrorsParsed
    ∧ batchWithErrorsParsed.status = "COMPLETE"
    ∧ batchObjectsCall (.ok (some batchWithErrorsBody))
      = (some batchWithErrorsParsed,
         some (.batchPartial batchWithErrorsParsed.numErrors
           batchWithErrorsParsed.errors)) :=
  ⟨rfl, rfl,
    (objectsBatch_partial_failure_surfaced batchWithErrorsBody
      batchWithErrorsParsed rfl (by decide)).1⟩

/-- C4 (amended): a 200 body decoding to an empty results array makes the
ordinary list calls `ListDeals`, `ListCompanies` and `ListAssociations`
return the empty envelope with no error, while `ListObjects` instead returns
nil results and the `no objects found` error. -/
theorem ordinary_list_calls_tolerate_empty_results (j : Jv)
    (rd : ListDealsResponse) (rc : ListCompaniesResponse)
    (ra : ListAssociationsResponse) (ro : ListObjectsEnvelope) :
    (decodeListDealsResponse j = some rd → rd.results = [] →
      ListDeals (.ok (some j)) = (some rd, none))
    ∧ (decodeListCompaniesResponse j = some rc → rc.results = [] →
      ListCompanies (.ok (some j)) = (some rc, none))
    ∧ (decodeListAssociationsResponse j = some ra → ra.results = [] →
      ListAssociations (.ok (some j)) = (some ra, none))
    ∧ (decodeListObjectsEnvelope j = some ro → ro.results = [] →
      ListObjects (.ok (some j)) = (none, none, some (.plain "no objects found"))) := by
  refine ⟨?_, ?_, ?_, ?_⟩
  · intro hdec _; simp [ListDeals, Option.bind, hdec]
  · intro hdec _; simp [ListCompanies, Option.bind, hdec]
  · intro hdec _; simp [ListAssociations, Option.bind, hdec]
  · intro hdec hempty; simp [ListObjects, Option.bind, hdec, hempty]

/-- Witness for C4: the body `{"results": [], "paging": null}` of the list
tests, evaluated through all four list calls. -/
theorem ordinary_list_calls_tolerate_empty_results_witness :
    ListDeals (.ok (some (.obj [("results", .arr []), ("paging", .null)])))
      = (some ⟨[], none⟩, none)
    ∧ ListCompanies (.ok (some (.obj [("results", .arr []), ("paging", .null)])))
      = (some ⟨[], none⟩, none)
    ∧ ListAssociations (.ok (some (.obj [("results", .arr []), ("paging", .null)])))
      = (some ⟨[], none⟩, none)
    ∧ ListObjects (.ok (some (.obj [("results", .arr []), ("paging", .null)])))
      = (none, none, some (.plain "no objects found")) := by
  have h := ordinary_list_calls_tolerate_empty_results
    (.obj [("results", .arr []), ("paging", .null)]) ⟨[], none⟩ ⟨[], none⟩
    ⟨[], none⟩ ⟨[], none⟩
  exact ⟨h.1 rfl rfl, h.2.1 rfl rfl, h.2.2.1 rfl rfl, h.2.2.2 rfl rfl⟩

/-- Counterexample for C4 as frozen: the claim includes `ListObjects` among
the calls that tolerate zero results, but on the 200 body `{"results": []}`
(the body of `TestListObjects_NoResults`) `ListObjects` does not return a
nil error. -/
theorem listObjects_empty_results_is_error :
    ¬ ((ListObjects (.ok (some (.obj [("results", .arr [])])))).2.2 = none) := by
  decide

/-- C7: on a 2xx response whose body does not deserialize into the declared
result type, each embedded resource method returns a nil result together
with the non-nil unmarshal error naming the originating call; and whenever
`GetDeal` returns a nil error its result is the decoded value, never a
zero-value result with a nil error. -/
theorem undecodable_body_yields_named_parse_error (body : Option Jv) :
    (body.bind decodeDeal = none →
      GetDeal (.ok body) = (none, some (.unmarshal "deal"))
      ∧ errorMessage (.unmarshal "deal") = "failed to unmarshal deal response")
    ∧ (body.bind decodeListDealsResponse = none →
      ListDeals (.ok body) = (none, some (.unmarshal "deals list"))
      ∧ errorMessage (.unmarshal "deals list")
        = "failed to unmarshal deals list response")
    ∧ (body.bind decodeListCompaniesResponse = none →
      ListCompanies (.ok body) = (none, some (.unmarshal "companies list"))
      ∧ errorMessage (.unmarshal "companies list")
        = "failed to unmarshal companies list response")
    ∧ (body.bind decodeGetAllSchemasResponse = none →
      GetAllSchemas (.ok body) = (none, some (.unmarshal "schemas"))
      ∧ errorMessage (.unmarshal "schemas")
        = "failed to unmarshal schemas response")
    ∧ ((GetDeal (.ok body)).2 = none →
      ∃ d : Deal, body.bind decodeDeal = some d
        ∧ (GetDeal (.ok body)).1 = some d) := by
  refine ⟨?_, ?_, ?_, ?_, ?_⟩
  · intro hdec; exact ⟨by simp [GetDeal, hdec], rfl⟩
  · intro hdec; exact ⟨by simp [ListDeals, hdec], rfl⟩
  · intro hdec; exact ⟨by simp [ListCompanies, hdec], rfl⟩
  · intro hdec; exact ⟨by simp [GetAllSchemas, hdec], rfl⟩
  · intro herr
    cases hdec : body.bind decodeDeal with
    | none => simp [GetDeal, hdec] at herr
    | some d => exact ⟨d, rfl, by simp [GetDeal, hdec]⟩

/-- Witness for C7: a syntactically invalid body (the `"invalid json"` of the
invalid-JSON tests) fails every decode and produces the named unmarshal
errors with nil results. -/
theorem undecodable_body_yields_named_parse_error_witness :
    GetDeal (.ok none) = (none, some (.unmarshal "deal"))
    ∧ ListDeals (.ok none) = (none, some (.unmarshal "deals list"))
    ∧ ListCompanies (.ok none) = (none, some (.unmarshal "companies list"))
    ∧ GetAllSchemas (.ok none) = (none, some (.unmarshal "schemas")) := by
  have h := undecodable_body_yields_named_parse_error none
  exact ⟨(h.1 rfl).1, (h.2.1 rfl).1, (h.2.2.1 rfl).1, (h.2.2.2.1 rfl).1⟩

/-- C8: the classifier is idempotent — whenever classifying a structured
server error yields a typed variant, classifying that variant's wrapped
original a second time with the same identifier yields the same variant. -/
theorem parseListError_idempotent (h o : HubSpotError) (listID : String)
    (ho : originalOf (ParseListError (.hubspot h) listID) = some o) :
    ParseListError (.hubspot o) listID = ParseListError (.hubspot h) listID := by
  unfold ParseListError at ho ⊢
  by_cases h404 : h.status = 404
  · simp [h404, originalOf] at ho
    subst ho; simp [h404]
  · by_cases h400 : h.status = 400
    · by_cases hcat : h.category = "VALIDATION_ERROR"
      · simp [h404, h400, hcat, originalOf] at ho
        subst ho; simp [h404, h400, hcat]
      · simp [h404, h400, hcat, originalOf] at ho
    · by_cases h409 : h.status = 409
      · simp [h404, h400, h409, originalOf] at ho
        subst ho; simp [h404, h400, h409]
      · simp [h404, h400, h409, originalOf] at ho

/-- Witness for C8: reclassifying the original wrapped by the variant that a
404 server error maps to yields the same variant. -/
theorem parseListError_idempotent_witness :
    originalOf (ParseListError (.hubspot ⟨404, "", "Not found"⟩) "list9")
      = some ⟨404, "", "Not found"⟩
    ∧ ParseListError (.hubspot ⟨404, "", "Not found"⟩) "list9"
      = ParseListError (.hubspot ⟨404, "", "Not found"⟩) "list9" :=
  ⟨rfl, parseListError_idempotent ⟨404, "", "Not found"⟩ ⟨404, "", "Not found"⟩ "list9" rfl⟩

/-- C10: a 400 server error with category VALIDATION_ERROR is mapped to a
validation variant whose Field slot holds the server error's Message and whose
Message slot is empty, so the rendered text is
`validation error on field <serverMessage>: `. -/
theorem parseListError_validation_message_in_field_slot
    (h : HubSpotError) (listID : String)
    (h400 : h.status = 400) (hcat : h.category = "VALIDATION_ERROR") :
    ParseListError (.hubspot h) listID = .listValidation h.message "" h
    ∧ errorMessage (ParseListError (.hubspot h) listID)
      = "validation error on field " ++ h.message ++ ": " := by
  have heq : ParseListError (.hubspot h) listID = .listValidation h.message "" h := by
    simp [ParseListError, h400, hcat]
  refine ⟨heq, ?_⟩
  rw [heq]
  simp [errorMessage]

/-- Witness for C10: classifying the validation error of the classifier test
puts the server message in the field slot, and the rendered text glues the
server message to the field position. -/
theorem parseListError_validation_message_in_field_slot_witness :
    ParseListError (.hubspot ⟨400, "VALIDATION_ERROR", "Invalid email format"⟩) "list1"
      = .listValidation "Invalid email format" ""
          ⟨400, "VALIDATION_ERROR", "Invalid email format"⟩
    ∧ errorMessage (ParseListError
        (.hubspot ⟨400, "VALIDATION_ERROR", "Invalid email format"⟩) "list1")
      = "validation error on field Invalid email format: " := by
  have h := parseListError_validation_message_in_field_slot
    ⟨400, "VALIDATION_ERROR", "Invalid email format"⟩ "list1" rfl rfl
  exact ⟨h.1, h.2.trans (by decide)⟩

/-- C6: rendering a batch item error follows exactly the four-case algorithm:
message with sub-errors joins them after `": "` with `"; "` separators,
message alone renders as itself, no message with sub-errors renders as
`batch error: ` plus the first sub-error's message, and neither renders as
`batch error`. -/
theorem batchError_render_cases (e : BatchError) :
    (e.message ≠ "" → ∀ f rest, e.errors = f :: rest →
      e.errorString = e.message ++ ": "
        ++ String.intercalate "; " (e.errors.map (fun s => s.message)))
    ∧ (e.message ≠ "" → e.errors = [] → e.errorString = e.message)
    ∧ (e.message = "" → ∀ f rest, e.errors = f :: rest →
      e.errorString = "batch error: " ++ f.message)
    ∧ (e.message = "" → e.errors = [] → e.errorString = "batch error") := by
  refine ⟨?_, ?_, ?_, ?_⟩
  · intro hm f rest herr
    simp [BatchError.errorString, hm, herr]
  · intro hm herr
    simp [BatchError.errorString, hm, herr]
  · intro hm f rest herr
    simp [BatchError.errorString, hm, herr]
  · intro hm herr
    simp [BatchError.errorString, hm, herr]

/-- Witness for C6: the four concrete batch item errors of the rendering
tests produce exactly the strings those tests expect. -/
theorem batchError_render_cases_witness :
    BatchError.errorString
      ⟨"error", "BATCH_ERROR", "Batch operation failed", [], [],
        [⟨"Object 1 not found", ""⟩, ⟨"Object 2 validation error", ""⟩]⟩
      = "Batch operation failed: Object 1 not found; Object 2 validation error"
    ∧ BatchError.errorString
        ⟨"error", "BATCH_ERROR", "Batch operation failed", [], [], []⟩
      = "Batch operation failed"
    ∧ BatchError.errorString
        ⟨"error", "BATCH_ERROR", "", [], [], [⟨"Object 1 not found", ""⟩]⟩
      = "batch error: Object 1 not found"
    ∧ BatchError.errorString ⟨"error", "BATCH_ERROR", "", [], [], []⟩
      = "batch error" := by
  refine ⟨?_, ?_, ?_, ?_⟩
  · exact ((batchError_render_cases _).1 (by decide) _ _ rfl).trans (by decide)
  · exact ((batchError_render_cases _).2.1 (by decide) rfl).trans (by decide)
  · exact ((batchError_render_cases _).2.2.1 rfl _ _ rfl).trans (by decide)
  · exact (batchError_render_cases _).2.2.2 rfl rfl

end HubSpotSDK
